import Mathlib

/-!
Shallow embedding of the `proforma_invoice_app` customization module:
the stock-reservation quantity accounting, document-mapping row conditions
and status-update rules of
`proforma_invoice_app/proforma_invoice_app/doctype/proforma/proforma.py`, and
the inter-company helpers of
`proforma_invoice_app/general_functions/general_functions.py`.

Conventions of the embedding:
* Python floats are modelled as `ℚ`; all the arithmetic in the modelled code
  is plain `+ - * min abs` on field values, with no rounding.
* Host-framework lookups (`frappe.db.get_value`, `get_stock_balance`,
  `frappe.get_cached_value`, ...) are parameters of the embedded functions:
  the spec names them as external collaborators.
* `frappe.throw` is modelled as `Except.error`; `frappe.msgprint` is a
  non-blocking message and is not modelled (it changes no data).
* A frappe document is modelled as a structure holding exactly the fields the
  modelled code reads or writes.
-/

namespace ProformaApp

/-- `frappe.utils.flt` coerces `None` and strings to `0.0`. Every value the
modelled code passes to `flt` is a numeric (Float) document field, on which
`flt` is the identity; `None`-valued reads are modelled separately with
`Option ℚ` and `Option.getD`. -/
def flt (x : ℚ) : ℚ := x

/-- Python truthiness of an optional string: `None` and `""` are falsy. -/
def truthyStr : Option String → Bool
  | some s => !s.isEmpty
  | none => false

/-- Python truthiness of an optional string list: `None` and `[]` are falsy
(`frappe.flags.args and frappe.flags.args.delivery_dates`). -/
def truthyStrList : Option (List String) → Bool
  | some l => !l.isEmpty
  | none => false

/-- `r` is `Except.error _`. -/
def isError {ε α : Type} : Except ε α → Bool
  | .error _ => true
  | .ok _ => false

/-- A `Proforma Item` row, with the fields read by
`get_unreserved_qty` and `create_stock_reservation_entries_for_so_items`
(proforma.py). `conversion_factor` is read with `item.get("conversion_factor", 1)`,
so absence of the attribute is modelled with `Option`; `qty_to_reserve` is only
set on the item in the `items_details` branch, and the code tests
`hasattr(item, "qty_to_reserve")`, modelled likewise with `Option`. -/
structure ProformaItem where
  name : String
  item_code : String
  warehouse : String
  reserve_stock : Bool
  picked_qty : ℚ
  stock_qty : ℚ
  delivered_qty : ℚ
  conversion_factor : Option ℚ
  qty_to_reserve : Option ℚ
  stock_uom : String
  serial_and_batch_bundle : Option String
  from_voucher_no : Option String
  from_voucher_detail_no : Option String
  deriving DecidableEq

/-- proforma.py lines 752-756. `reserved_qty_details` is the dict returned by
the host framework's `get_sre_reserved_qty_details_for_voucher`, keyed by the
item row name; `.get(item.name, 0)` is `lookup` with default `0`. -/
def get_unreserved_qty (item : ProformaItem) (reserved_qty_details : List (String × ℚ)) : ℚ :=
  let existing_reserved_qty := (reserved_qty_details.lookup item.name).getD 0
  item.stock_qty - flt item.delivered_qty * (item.conversion_factor.getD 1) - existing_reserved_qty

/-- The quantity C2 claims `get_unreserved_qty` returns: the item's `stock_qty`,
minus its `delivered_qty` times its conversion factor (1 when the item has no
`conversion_factor`), minus the reserved quantity recorded in the map under the
item's row name (0 when the row name is absent). -/
def claimed_unreserved_qty (item : ProformaItem) (reserved_qty_details : List (String × ℚ)) : ℚ :=
  item.stock_qty - item.delivered_qty * (item.conversion_factor.getD 1)
    - ((reserved_qty_details.lookup item.name).getD 0)

/-- A submitted-or-draft `Stock Reservation Entry` row of the database, with the
columns the query in `get_available_qty_to_reserve` reads. -/
structure StockReservationEntryRow where
  name : String
  item_code : String
  warehouse : String
  docstatus : Nat
  status : String
  reserved_qty : ℚ
  delivered_qty : ℚ
  deriving DecidableEq

/-- proforma.py lines 1263-1299. `get_stock_balance` and `get_batch_qty` are the
host framework's stock utilities (external collaborators); the `Stock
Reservation Entry` table is the explicit list `sre_table`. Python's
`if available_qty:` and `if reserved_qty:` are nonzero tests; `query.run()[0][0]
or 0.0` is the sum over the filtered rows, `0.0` when there is no row. -/
def get_available_qty_to_reserve
    (get_stock_balance : String → String → ℚ)
    (get_batch_qty : String → String → String → Option String → ℚ)
    (sre_table : List StockReservationEntryRow)
    (item_code warehouse : String)
    (batch_no : Option String) (ignore_sre : Option String) : ℚ :=
  match batch_no with
  | some b => get_batch_qty item_code warehouse b ignore_sre
  | none =>
    let available_qty := get_stock_balance item_code warehouse
    if available_qty ≠ 0 then
      let matching := sre_table.filter fun sre =>
        sre.docstatus == 1 && sre.item_code == item_code && sre.warehouse == warehouse
          && decide (sre.delivered_qty ≤ sre.reserved_qty)
          && !(["Delivered", "Cancelled"].contains sre.status)
          && (match ignore_sre with | some ig => sre.name != ig | none => true)
      let reserved_qty := (matching.map fun sre => sre.reserved_qty - sre.delivered_qty).sum
      if reserved_qty ≠ 0 then available_qty - reserved_qty else available_qty
    else available_qty

/-- The sum C4 describes: over all submitted Stock Reservation Entries for the
item and warehouse whose status is neither "Delivered" nor "Cancelled" and
whose `reserved_qty` is at least `delivered_qty`, excluding the entry named by
`ignore_sre` when given, the sum of `reserved_qty - delivered_qty`. -/
def claimed_reserved_sum (sre_table : List StockReservationEntryRow)
    (item_code warehouse : String) (ignore_sre : Option String) : ℚ :=
  ((sre_table.filter fun sre =>
      sre.docstatus == 1 && sre.item_code == item_code && sre.warehouse == warehouse
        && decide (sre.delivered_qty ≤ sre.reserved_qty)
        && !(sre.status == "Delivered") && !(sre.status == "Cancelled")
        && (match ignore_sre with | some ig => sre.name != ig | none => true)).map
    fun sre => sre.reserved_qty - sre.delivered_qty).sum

/-- The value C4 claims `get_available_qty_to_reserve` returns when called
without a batch number: the stock balance minus `claimed_reserved_sum`, except
that a zero balance or a zero sum returns the balance unchanged. -/
def claimed_available_qty_to_reserve
    (get_stock_balance : String → String → ℚ)
    (sre_table : List StockReservationEntryRow)
    (item_code warehouse : String) (ignore_sre : Option String) : ℚ :=
  let balance := get_stock_balance item_code warehouse
  let s := claimed_reserved_sum sre_table item_code warehouse ignore_sre
  if balance = 0 ∨ s = 0 then balance else balance - s

/-- proforma.py lines 1245-1261: `enable_stock_reservation` is the single value
read from Stock Settings (its truthiness modelled as `Bool`);
`allowed_voucher_types = ["Proforma"]`. -/
def validate_stock_reservation_settings
    (enable_stock_reservation : Bool) (voucher_doctype : String) : Except String Unit :=
  if !enable_stock_reservation then
    .error "Please enable Stock Reservation in the Stock Settings."
  else
    let allowed_voucher_types := ["Proforma"]
    if !(allowed_voucher_types.contains voucher_doctype) then
      .error "Stock Reservation can only be created against Proforma."
    else .ok ()

/-- The host-framework state and settings read by
`create_stock_reservation_entries_for_so_items` (proforma.py lines 1040-1243):
the reserved-quantity map of the voucher, the `allow_partial_reservation`
single value, the cached `Item` flags (`is_stock_item`, `has_serial_no`,
`has_batch_no`), the cached `Warehouse.is_group` flag, the stock utilities,
the `from_voucher_type` argument and the voucher's own fields. -/
structure ReservationEnv where
  reserved_qty_details : List (String × ℚ)
  allow_partial_reservation : Bool
  item_meta : String → Bool × Bool × Bool
  warehouse_is_group : String → Bool
  get_stock_balance : String → String → ℚ
  get_batch_qty : String → String → String → Option String → ℚ
  from_voucher_type : Option String
  voucher_doctype : String
  voucher_no : String
  company : String
  project : String

/-- A `Stock Reservation Entry` document as built by
`create_stock_reservation_entries_for_so_items` (proforma.py lines 1194-1213)
before `save`/`submit`. The serial-and-batch sub-entries appended on lines
1215-1236 touch none of these fields and none of the fields any claim reads,
and are not modelled. -/
structure CreatedStockReservationEntry where
  item_code : String
  warehouse : String
  has_serial_no : Bool
  has_batch_no : Bool
  voucher_type : String
  voucher_no : String
  voucher_detail_no : String
  available_qty : ℚ
  voucher_qty : ℚ
  reserved_qty : ℚ
  company : String
  stock_uom : String
  project : String
  from_voucher_type : Option String
  from_voucher_no : Option String
  from_voucher_detail_no : Option String
  deriving DecidableEq

/-- The body of the per-item loop of
`create_stock_reservation_entries_for_so_items` (proforma.py lines 1086-1241):
`.error` is the `frappe.throw` for a picked item (it aborts the whole call),
`.ok none` a `continue` (the non-blocking `msgprint`s along the skips change no
data and are not modelled; the `item.db_set("reserve_stock", 0)` write of the
non-stock skip touches nothing any claim reads), `.ok (some sre)` the entry
built and submitted for the item. -/
def reserve_item_step (env : ReservationEnv) (sre_table : List StockReservationEntryRow)
    (item : ProformaItem) : Except String (Option CreatedStockReservationEntry) :=
  if !item.reserve_stock then .ok none
  else if env.from_voucher_type != some "Pick List" && decide (0 < flt item.picked_qty) then
    .error "Item has been picked, please reserve stock from the Pick List."
  else
    let meta := env.item_meta item.item_code
    let is_stock_item := meta.1
    let has_serial_no := meta.2.1
    let has_batch_no := meta.2.2
    if !is_stock_item then .ok none
    else if env.warehouse_is_group item.warehouse then .ok none
    else
      let unreserved_qty := get_unreserved_qty item env.reserved_qty_details
      if unreserved_qty ≤ 0 then .ok none
      else
        let available_qty_to_reserve :=
          get_available_qty_to_reserve env.get_stock_balance env.get_batch_qty sre_table
            item.item_code item.warehouse none none
        if available_qty_to_reserve ≤ 0 then .ok none
        else
          let qty_to_be_reserved := min unreserved_qty available_qty_to_reserve
          let capped_qty : Option ℚ :=
            match item.qty_to_reserve with
            | some qty_to_reserve =>
              if qty_to_reserve ≤ 0 then none
              else some (min qty_to_be_reserved qty_to_reserve)
            | none => some qty_to_be_reserved
          match capped_qty with
          | none => .ok none
          | some qty =>
            if qty < unreserved_qty && !env.allow_partial_reservation then .ok none
            else
              .ok (some
                { item_code := item.item_code
                  warehouse := item.warehouse
                  has_serial_no := has_serial_no
                  has_batch_no := has_batch_no
                  voucher_type := env.voucher_doctype
                  voucher_no := env.voucher_no
                  voucher_detail_no := item.name
                  available_qty := available_qty_to_reserve
                  voucher_qty := item.stock_qty
                  reserved_qty := qty
                  company := env.company
                  stock_uom := item.stock_uom
                  project := env.project
                  from_voucher_type :=
                    if truthyStr env.from_voucher_type then env.from_voucher_type else none
                  from_voucher_no :=
                    if truthyStr env.from_voucher_type then item.from_voucher_no else none
                  from_voucher_detail_no :=
                    if truthyStr env.from_voucher_type then item.from_voucher_detail_no
                    else none })

/-- The per-item loop of `create_stock_reservation_entries_for_so_items`
(proforma.py lines 1086-1241). Each `sre.save(); sre.submit()` persists the new
entry, so later iterations' `get_available_qty_to_reserve` queries see it:
`register` is the host framework's persistence of the submitted document as a
table row (it sets the row's status and name). -/
def create_entries_loop (env : ReservationEnv)
    (register : CreatedStockReservationEntry → StockReservationEntryRow) :
    List ProformaItem → List StockReservationEntryRow →
      Except String (List CreatedStockReservationEntry)
  | [], _ => .ok []
  | item :: rest, sre_table =>
    match reserve_item_step env sre_table item with
    | .error e => .error e
    | .ok none => create_entries_loop env register rest sre_table
    | .ok (some sre) =>
      match create_entries_loop env register rest (sre_table ++ [register sre]) with
      | .error e => .error e
      | .ok l => .ok (sre :: l)

/-- proforma.py lines 1040-1243, for an already-prepared item list (the
`items_details` branch on lines 1064-1081 builds the list from `Proforma Item`
rows fetched by name, overlaid with the request's warehouse, converted
`qty_to_reserve` and from-voucher fields; both branches then run the same
loop). `action` is `proforma.get("_action")`, `set_warehouse` the voucher's
`set_warehouse`. -/
def create_stock_reservation_entries_for_so_items
    (enable_stock_reservation : Bool) (action : Option String) (set_warehouse : Option String)
    (env : ReservationEnv)
    (register : CreatedStockReservationEntry → StockReservationEntryRow)
    (items : List ProformaItem) (sre_table : List StockReservationEntryRow) :
    Except String (List CreatedStockReservationEntry) :=
  if !truthyStr env.from_voucher_type
      && (action == some "submit" && truthyStr set_warehouse
            && env.warehouse_is_group (set_warehouse.getD "")) then
    .ok []
  else
    match validate_stock_reservation_settings enable_stock_reservation env.voucher_doctype with
    | .error e => .error e
    | .ok _ => create_entries_loop env register items sre_table

/-- The quantity C1 claims every created entry reserves for its item:
`min(unreserved qty, available qty to reserve)`, further capped by the item's
`qty_to_reserve` when that attribute is present. -/
def claimed_reserved_qty (item : ProformaItem) (unreserved available : ℚ) : ℚ :=
  match item.qty_to_reserve with
  | some qty_to_reserve => min (min unreserved available) qty_to_reserve
  | none => min unreserved available

/-- The party-type selection of `validate_inter_company_party`
(general_functions.py lines 30-43), literal strings included: the sales-side
list on line 30 is written `["Sales Invoice", "Sales Order", "Porforma"]` in
the source — "Porforma", not "Proforma". -/
structure InterCompanyBranch where
  partytype : String
  ref_partytype : String
  internal : String
  ref_doc : String
  deriving DecidableEq

/-- general_functions.py lines 30-43. -/
def inter_company_party_branch (doctype : String) : InterCompanyBranch :=
  if ["Sales Invoice", "Sales Order", "Porforma"].contains doctype then
    { partytype := "Customer", ref_partytype := "Supplier", internal := "is_internal_customer",
      ref_doc := if doctype == "Sales Invoice" then "Purchase Invoice" else "Purchase Order" }
  else
    { partytype := "Supplier", ref_partytype := "Customer", internal := "is_internal_supplier",
      ref_doc := if doctype == "Purchase Invoice" then "Sales Invoice" else "Proforma" }

/-- general_functions.py line 47: `ref_party = doc.supplier if doctype in
["Sales Invoice", "Sales Order", "Proforma"] else doc.customer` — here the
source spells "Proforma" correctly. -/
def inter_company_ref_party_is_supplier (doctype : String) : Bool :=
  ["Sales Invoice", "Sales Order", "Proforma"].contains doctype

/-- The fields `validate_inter_company_party` reads off the referenced
counterpart document. -/
structure RefDocRecord where
  company : String
  supplier : String
  customer : String

/-- The host-framework lookups `validate_inter_company_party` performs. -/
structure InterCompanyEnv where
  /-- `frappe.get_doc(ref_doc, inter_company_reference)`. -/
  get_ref_doc : String → String → RefDocRecord
  /-- `frappe.db.get_value(partytype, {"represents_company": company}, "name")`. -/
  party_representing : String → String → Option String
  /-- `frappe.get_cached_value(ref_partytype, ref_party, "represents_company")`. -/
  represents_company : String → String → Option String
  /-- `frappe.db.get_value(partytype, {"name": party, internal: 1}, "name")`. -/
  internal_party : String → String → String → Option String
  /-- The companies of the `Allowed To Transact With` rows with
  `{"parenttype": partytype, "parent": party}`. -/
  allowed_companies : String → String → List String

/-- general_functions.py lines 26-65. The party is modelled as a string,
`if not party: return` as the empty-string test. -/
def validate_inter_company_party (env : InterCompanyEnv) (doctype party company : String)
    (inter_company_reference : Option String) : Except String Unit :=
  if party == "" then .ok ()
  else
    let b := inter_company_party_branch doctype
    if truthyStr inter_company_reference then
      let doc := env.get_ref_doc b.ref_doc (inter_company_reference.getD "")
      let ref_party :=
        if inter_company_ref_party_is_supplier doctype then doc.supplier else doc.customer
      if !(env.party_representing b.partytype doc.company == some party) then
        .error "Invalid party for Inter Company Transaction."
      else if !(env.represents_company b.ref_partytype ref_party == some company) then
        .error "Invalid Company for Inter Company Transaction."
      else .ok ()
    else if env.internal_party b.partytype party b.internal == some party then
      if !((env.allowed_companies b.partytype party).contains company) then
        .error "Party not allowed to transact with this Company."
      else .ok ()
    else .ok ()

/-- One `frappe.db.set_value(doctype, name, field, value)` call. -/
structure DbWrite where
  doctype : String
  name : String
  field : String
  value : String
  deriving DecidableEq

/-- general_functions.py lines 4-14, as the list of `frappe.db.set_value`
writes it performs. -/
def unlink_inter_company_doc (doctype name : String)
    (inter_company_reference : Option String) : List DbWrite :=
  let pair :=
    if ["Sales Invoice", "Purchase Invoice"].contains doctype then
      ((if doctype == "Sales Invoice" then "Purchase Invoice" else "Sales Invoice"),
        "inter_company_invoice_reference")
    else
      ((if doctype == "Sales Order" then "Purchase Order" else "Sales Order"),
        "inter_company_order_reference")
  if truthyStr inter_company_reference then
    [{ doctype := doctype, name := name, field := pair.2, value := "" },
     { doctype := pair.1, name := inter_company_reference.getD "", field := pair.2, value := "" }]
  else []

/-- general_functions.py lines 16-23, as the list of `frappe.db.set_value`
writes it performs. -/
def update_linked_doc (doctype name : String)
    (inter_company_reference : Option String) : List DbWrite :=
  let ref_field :=
    if ["Sales Invoice", "Purchase Invoice"].contains doctype then
      "inter_company_invoice_reference"
    else "inter_company_order_reference"
  if truthyStr inter_company_reference then
    [{ doctype := doctype, name := inter_company_reference.getD "",
       field := ref_field, value := name }]
  else []

/-- A `Proforma Item` row as read by the item mapping of `make_delivery_note`
(proforma.py lines 1302-1440). `delivery_date` is its `cstr` rendering;
`stock_reserved_qty` selects the rows of the `so_items` dict on line 1404;
`conversion_factor` is read with `dn_item.get("conversion_factor", 1)` on line
1427 (the mapper copies it into the Delivery Note Item by name), so absence is
modelled with `Option`. -/
structure DeliveryNoteSourceItem where
  name : String
  delivery_date : String
  delivered_qty : ℚ
  qty : ℚ
  delivered_by_supplier : Int
  rate : ℚ
  base_rate : ℚ
  stock_reserved_qty : ℚ
  conversion_factor : Option ℚ
  deriving DecidableEq

/-- The `condition` closure of `make_delivery_note` (proforma.py lines
1354-1364): the verdict, and the `sre_details` keys after the `del` a hit
performs. `sre_details` holds the keys of the reserved-qty dict fetched for the
voucher when `for_reserved_stock` is set (empty otherwise); `delivery_dates` is
`frappe.flags.args.delivery_dates`, with `frappe.flags.args` falsy or the list
empty both falsy. -/
def make_delivery_note_condition (sre_details : List String)
    (delivery_dates : Option (List String)) (doc : DeliveryNoteSourceItem) :
    Bool × List String :=
  if sre_details.contains doc.name then (false, sre_details.erase doc.name)
  else if truthyStrList delivery_dates
      && !((delivery_dates.getD []).contains doc.delivery_date) then
    (false, sre_details)
  else (decide (|doc.delivered_qty| < |doc.qty|) && doc.delivered_by_supplier != 1, sre_details)

/-- The fields the `update_item` closure of `make_delivery_note` computes
(proforma.py lines 1366-1369); the cost-center lookup below them touches no
field any claim reads. -/
structure DeliveryNoteItemUpdate where
  base_amount : ℚ
  amount : ℚ
  qty : ℚ
  deriving DecidableEq

/-- proforma.py lines 1366-1369; also reused as `update_dn_item` by the
reserved-stock branch (lines 1401-1402). -/
def make_delivery_note_update_item (source : DeliveryNoteSourceItem) : DeliveryNoteItemUpdate :=
  { base_amount := (flt source.qty - flt source.delivered_qty) * flt source.base_rate
    amount := (flt source.qty - flt source.delivered_qty) * flt source.rate
    qty := flt source.qty - flt source.delivered_qty }

/-- A Delivery Note Item row as `make_delivery_note` builds it: `so_detail` is
the source row's name (the `field_map` of both mappers), the other fields come
from `update_item`; the reserved-stock branch then overwrites `qty`. Fields no
claim reads (cost center, serial-and-batch bundle, rate copies) are not
modelled. -/
structure MappedDnItem where
  so_detail : String
  base_amount : ℚ
  amount : ℚ
  qty : ℚ
  deriving DecidableEq

/-- The row the main item mapper of `make_delivery_note` appends for a source
row that passes `condition`: `update_item` applied to the source row
(proforma.py lines 1366-1369, 1381-1391). -/
def make_delivery_note_mapped_item (doc : DeliveryNoteSourceItem) : MappedDnItem :=
  { so_detail := doc.name
    base_amount := (make_delivery_note_update_item doc).base_amount
    amount := (make_delivery_note_update_item doc).amount
    qty := (make_delivery_note_update_item doc).qty }

/-- A row of `get_sre_details_for_voucher` as the reserved-stock branch of
`make_delivery_note` reads it (proforma.py lines 1397-1431): the fields
`reservation_based_on`/`has_serial_no`/`has_batch_no` only drive the
serial-and-batch bundle on lines 1429-1430, which no claim reads, and are not
modelled. -/
structure SreDetail where
  voucher_detail_no : String
  reserved_qty : ℚ
  deriving DecidableEq

/-- The `so_items` dict of the reserved-stock branch (proforma.py line 1404):
`{d.name: d for d in so.items if d.stock_reserved_qty}`, looked up at a
voucher-detail name. A dict comprehension keeps the last row per name, hence
`find?` over the reversed filtered list. -/
def so_items_lookup (items : List DeliveryNoteSourceItem) (name : String) :
    Option DeliveryNoteSourceItem :=
  ((items.filter fun d => d.stock_reserved_qty != 0).reverse).find? fun d => d.name == name

/-- The main item-mapping pass of `make_delivery_note` (proforma.py lines
1381-1394): `get_mapped_doc` evaluates `condition` on each `Proforma Item` row
in order — the dict deletions of `condition` carry over to later rows — and
appends `update_item`'s row for each row that passes. Returns the mapped rows
and the `sre_details` keys left after the pass. -/
def map_items_phase (delivery_dates : Option (List String)) :
    List DeliveryNoteSourceItem → List String → List MappedDnItem × List String
  | [], sre_details => ([], sre_details)
  | doc :: rest, sre_details =>
    let r := make_delivery_note_condition sre_details delivery_dates doc
    let t := map_items_phase delivery_dates rest r.2
    if r.1 then (make_delivery_note_mapped_item doc :: t.1, t.2) else t

/-- The reserved-stock branch of `make_delivery_note` (proforma.py lines
1406-1431): for each Stock Reservation Entry of the voucher, the item row is
taken from `so_items` (a missing key raises, as `so_items[...]` does),
`condition` is re-evaluated against the dict as the main pass left it, and a
passing row is mapped through `update_dn_item` with its `qty` then overwritten
to `flt(sre.reserved_qty) * flt(dn_item.get("conversion_factor", 1))`. -/
def map_reserved_phase (delivery_dates : Option (List String))
    (items : List DeliveryNoteSourceItem) :
    List SreDetail → List String → Except String (List MappedDnItem × List String)
  | [], sre_details => .ok ([], sre_details)
  | sre :: rest, sre_details =>
    match so_items_lookup items sre.voucher_detail_no with
    | none => .error "KeyError"
    | some doc =>
      let r := make_delivery_note_condition sre_details delivery_dates doc
      match map_reserved_phase delivery_dates items rest r.2 with
      | .error e => .error e
      | .ok t =>
        if r.1 then
          .ok ({ so_detail := doc.name
                 base_amount := (make_delivery_note_update_item doc).base_amount
                 amount := (make_delivery_note_update_item doc).amount
                 qty := flt sre.reserved_qty * (doc.conversion_factor.getD 1) } :: t.1, t.2)
        else .ok t

/-- The item rows `make_delivery_note` puts into the Delivery Note
(proforma.py lines 1302-1440): the main mapper's pass (run unless
`skip_item_mapping`) over the voucher's `Proforma Item` rows, then, when the
call is `for_reserved_stock`, the reserved-stock branch over the voucher's
Stock Reservation Entries. `sre_reserved_keys` is the key set of
`get_sre_reserved_qty_details_for_voucher`, fetched only when
`for_reserved_stock` (line 1319-1320); `sre_list` is
`get_sre_details_for_voucher`, consulted only by the reserved-stock branch
(`if sre_list:` is the empty-list truthiness test). -/
def make_delivery_note_items (for_reserved_stock skip_item_mapping : Bool)
    (delivery_dates : Option (List String)) (items : List DeliveryNoteSourceItem)
    (sre_reserved_keys : List String) (sre_list : List SreDetail) :
    Except String (List MappedDnItem) :=
  let sre_details := if for_reserved_stock then sre_reserved_keys else []
  let phase1 :=
    if skip_item_mapping then (([] : List MappedDnItem), sre_details)
    else map_items_phase delivery_dates items sre_details
  if !skip_item_mapping && for_reserved_stock then
    if !sre_list.isEmpty then
      match map_reserved_phase delivery_dates items sre_list phase1.2 with
      | .error e => .error e
      | .ok t => .ok (phase1.1 ++ t.1)
    else .ok phase1.1
  else .ok phase1.1

/-- The row-mapping criterion C6 (as amended) states for the main item mapper
of `make_delivery_note`: the row name is not among the reserved-stock detail
keys fetched for the voucher, the delivery date is in the caller-supplied set
whenever a non-empty such set is supplied, `|delivered_qty| < |qty|`, and
`delivered_by_supplier` is not 1. -/
def dn_claim_condition (sre_details : List String) (delivery_dates : Option (List String))
    (doc : DeliveryNoteSourceItem) : Bool :=
  !(sre_details.contains doc.name)
    && (!truthyStrList delivery_dates || (delivery_dates.getD []).contains doc.delivery_date)
    && decide (|doc.delivered_qty| < |doc.qty|) && doc.delivered_by_supplier != 1

/-- The reserved rows C6 (as amended) states the reserved-stock branch appends:
one Delivery Note row per Stock Reservation Entry whose item row passes the
same delivery-date, quantity and supplier checks, with qty equal to the entry's
`reserved_qty` times the row's conversion factor. -/
def dn_claim_reserved_rows (delivery_dates : Option (List String))
    (items : List DeliveryNoteSourceItem) (sre_list : List SreDetail) : List MappedDnItem :=
  sre_list.filterMap fun sre =>
    match so_items_lookup items sre.voucher_detail_no with
    | none => none
    | some doc =>
      if (!truthyStrList delivery_dates
            || (delivery_dates.getD []).contains doc.delivery_date)
          && decide (|doc.delivered_qty| < |doc.qty|) && doc.delivered_by_supplier != 1 then
        some { so_detail := doc.name
               base_amount := (make_delivery_note_update_item doc).base_amount
               amount := (make_delivery_note_update_item doc).amount
               qty := flt sre.reserved_qty * (doc.conversion_factor.getD 1) }
      else none

/-- A `Proforma` document as read by `close_or_unclose_proforma`. -/
structure ProformaDoc where
  docstatus : Nat
  status : String
  per_delivered : ℚ
  per_billed : ℚ
  deriving DecidableEq

/-- The per-document body of `close_or_unclose_proforma` (proforma.py lines
916-926). `so.update_status(status)` stores the given status through the host
framework's status updater (`set_status(update=True, status=status)`); the
`update_blanket_order` call changes no status. -/
def close_or_unclose_one (so : ProformaDoc) (status : String) : ProformaDoc :=
  if so.docstatus = 1 then
    if status = "Closed" then
      if ¬(so.status = "Cancelled" ∨ so.status = "Closed")
          ∧ (so.per_delivered < 100 ∨ so.per_billed < 100) then
        { so with status := status }
      else so
    else
      if so.status = "Closed" then { so with status := "Draft" } else so
  else so

/-- proforma.py lines 909-928: the permission check throws before any document
is loaded or touched; then each named document is updated in turn. -/
def close_or_unclose_proforma (has_write_permission : Bool) (docs : List ProformaDoc)
    (status : String) : Except String (List ProformaDoc) :=
  if !has_write_permission then .error "Not permitted"
  else .ok (docs.map fun so => close_or_unclose_one so status)

/-- A `Quotation Item` row as read by the `update_item` closure of
`_make_proforma` (proforma.py lines 815-818). -/
structure QuotationItemRow where
  item_code : String
  qty : ℚ
  conversion_factor : ℚ
  deriving DecidableEq

/-- proforma.py lines 815-818: the mapped row's `qty` and `stock_qty`.
`ordered_items` is the grouped sum of submitted `Proforma Item` qty per
item code (`.get(obj.item_code, 0.0)` is `lookup` with default `0`); the
blanket-order field copy on lines 820-823 touches neither field. -/
def make_proforma_update_item (obj : QuotationItemRow)
    (ordered_items : List (String × ℚ)) : ℚ × ℚ :=
  let balance_qty := obj.qty - (ordered_items.lookup obj.item_code).getD 0
  let qty := if balance_qty > 0 then balance_qty else 0
  (qty, flt qty * flt obj.conversion_factor)

/-- A Python argument that may be `None`, a JSON string or a list: the
`selected_items` parameter of `make_purchase_order` and
`make_purchase_order_for_default_supplier`. -/
inductive PyListArg (α : Type) where
  | noneArg : PyListArg α
  | strArg : String → PyListArg α
  | listArg : List α → PyListArg α

/-- Python truthiness of such an argument: `None`, `""` and `[]` are falsy. -/
def PyListArg.truthy {α : Type} : PyListArg α → Bool
  | .noneArg => false
  | .strArg s => !s.isEmpty
  | .listArg l => !l.isEmpty

/-- A row of `selected_items`. -/
structure SelectedItem where
  item_code : Option String
  supplier : Option String
  deriving DecidableEq

/-- proforma.py lines 1747-1753 (the head of `make_purchase_order`): `if not
selected_items: return` answers `None` having performed no write; otherwise a
string argument is JSON-decoded (`parse`) and the rest of the function
(`rest`: mapping, `doc.insert`, `frappe.db.commit`) runs. Its result is the
returned value and the list of database writes performed. -/
def make_purchase_order {α : Type} (selected_items : PyListArg SelectedItem)
    (parse : String → List SelectedItem)
    (rest : List SelectedItem → Option α × List DbWrite) : Option α × List DbWrite :=
  match selected_items with
  | .noneArg => (none, [])
  | .strArg s => if s.isEmpty then (none, []) else rest (parse s)
  | .listArg l => if l.isEmpty then (none, []) else rest l

/-- proforma.py lines 1618-1628 (the head of
`make_purchase_order_for_default_supplier`): the same guard, `if not
selected_items: return`, in front of the per-supplier mapping loop. -/
def make_purchase_order_for_default_supplier {α : Type}
    (selected_items : PyListArg SelectedItem) (parse : String → List SelectedItem)
    (rest : List SelectedItem → Option α × List DbWrite) : Option α × List DbWrite :=
  match selected_items with
  | .noneArg => (none, [])
  | .strArg s => if s.isEmpty then (none, []) else rest (parse s)
  | .listArg l => if l.isEmpty then (none, []) else rest l

/-! Concrete fixtures for the witness and counterexample theorems. -/

/-- A concrete reservation environment: reservation enabled, nothing reserved
yet, a plain stock item in a leaf warehouse with a stock balance of 10. -/
def exampleReservationEnv : ReservationEnv :=
  { reserved_qty_details := []
    allow_partial_reservation := true
    item_meta := fun _ => (true, false, false)
    warehouse_is_group := fun _ => false
    get_stock_balance := fun _ _ => 10
    get_batch_qty := fun _ _ _ _ => 0
    from_voucher_type := none
    voucher_doctype := "Proforma"
    voucher_no := "PRF-0001"
    company := "Example Co"
    project := "" }

/-- A concrete Proforma Item with 5 to reserve. -/
def exampleItem : ProformaItem :=
  { name := "PRFI-0001", item_code := "ITEM-001", warehouse := "Stores"
    reserve_stock := true, picked_qty := 0, stock_qty := 5, delivered_qty := 0
    conversion_factor := some 1, qty_to_reserve := none, stock_uom := "Nos"
    serial_and_batch_bundle := none, from_voucher_no := none, from_voucher_detail_no := none }

/-- The entry `reserve_item_step` creates for `exampleItem` in
`exampleReservationEnv`. -/
def exampleCreatedSre : CreatedStockReservationEntry :=
  { item_code := "ITEM-001", warehouse := "Stores", has_serial_no := false
    has_batch_no := false, voucher_type := "Proforma", voucher_no := "PRF-0001"
    voucher_detail_no := "PRFI-0001", available_qty := 10, voucher_qty := 5
    reserved_qty := 5, company := "Example Co", stock_uom := "Nos", project := ""
    from_voucher_type := none, from_voucher_no := none, from_voucher_detail_no := none }

/-- The host framework's persistence of a submitted entry, for the witness. -/
def exampleRegister (sre : CreatedStockReservationEntry) : StockReservationEntryRow :=
  { name := "SRE-0001", item_code := sre.item_code, warehouse := sre.warehouse
    docstatus := 1, status := "Reserved", reserved_qty := sre.reserved_qty
    delivered_qty := 0 }

/-- A rest-of-function for the C10 witness that would create a Purchase Order
and write to the database. -/
def examplePurchaseOrderRest (po : String) : List SelectedItem → Option String × List DbWrite :=
  fun _ => (some po, [{ doctype := "Purchase Order", name := po
                        field := "status", value := "Draft" }])

/-- A Proforma Item row not yet delivered, due on 2026-01-15: the
delivery-dates filter of `make_delivery_note` would exclude it if the
caller-supplied empty set of dates were consulted. -/
def exampleDnItem : DeliveryNoteSourceItem :=
  { name := "PRFI-0002", delivery_date := "2026-01-15", delivered_qty := 0, qty := 1
    delivered_by_supplier := 0, rate := 10, base_rate := 10
    stock_reserved_qty := 0, conversion_factor := some 1 }

/-- A Proforma Item row of qty 10 with 5 reserved, for the reserved-stock
branch of `make_delivery_note`. -/
def exampleReservedDnItem : DeliveryNoteSourceItem :=
  { name := "PRFI-0005", delivery_date := "2026-01-20", delivered_qty := 0, qty := 10
    delivered_by_supplier := 0, rate := 2, base_rate := 2
    stock_reserved_qty := 5, conversion_factor := some 1 }

/-- The Stock Reservation Entry detail reserving 5 of `exampleReservedDnItem`. -/
def exampleSreDetail : SreDetail :=
  { voucher_detail_no := "PRFI-0005", reserved_qty := 5 }

/-- The Delivery Note row the reserved-stock branch appends for
`exampleSreDetail`: qty `5 * 1 = 5`, not `qty - delivered_qty = 10`. -/
def exampleReservedMappedRow : MappedDnItem :=
  { so_detail := "PRFI-0005", base_amount := 20, amount := 20, qty := 5 }

/-! The claims. -/

/-- C2: for every Proforma Item and every reserved-quantity map,
`get_unreserved_qty` returns the item's `stock_qty`, minus its `delivered_qty`
times its conversion factor (1 when the item has no `conversion_factor`), minus
the reserved quantity recorded in the map under the item's row name (0 when the
row name is absent from the map). -/
theorem get_unreserved_qty_eq_claimed (item : ProformaItem)
    (reserved_qty_details : List (String × ℚ)) :
    get_unreserved_qty item reserved_qty_details
      = claimed_unreserved_qty item reserved_qty_details := rfl

/-- C5: `validate_stock_reservation_settings` raises exactly when the
`enable_stock_reservation` setting is falsy or the voucher's doctype is not
"Proforma", and returns normally in every other case. -/
theorem validate_stock_reservation_settings_raises_iff
    (enable_stock_reservation : Bool) (voucher_doctype : String) :
    (isError (validate_stock_reservation_settings enable_stock_reservation voucher_doctype)
        = true
      ↔ (enable_stock_reservation = false ∨ voucher_doctype ≠ "Proforma"))
    ∧ (¬(enable_stock_reservation = false ∨ voucher_doctype ≠ "Proforma") →
        validate_stock_reservation_settings enable_stock_reservation voucher_doctype
          = .ok ()) := by
  cases enable_stock_reservation <;>
    by_cases hd : voucher_doctype = "Proforma" <;>
      simp [validate_stock_reservation_settings, isError, hd]

/-- C8: the `update_item` closure of `_make_proforma` maps a non-negative
quantity: the quotation row's qty minus the already-ordered quantity for that
item code when that difference is positive and 0 otherwise, and the mapped
`stock_qty` equals the mapped qty times the quotation row's conversion
factor. -/
theorem make_proforma_update_item_spec (obj : QuotationItemRow)
    (ordered_items : List (String × ℚ)) :
    0 ≤ (make_proforma_update_item obj ordered_items).1
    ∧ (make_proforma_update_item obj ordered_items).1
        = (if 0 < obj.qty - (ordered_items.lookup obj.item_code).getD 0
            then obj.qty - (ordered_items.lookup obj.item_code).getD 0 else 0)
    ∧ (make_proforma_update_item obj ordered_items).2
        = (make_proforma_update_item obj ordered_items).1 * obj.conversion_factor := by
  unfold make_proforma_update_item flt
  refine ⟨?_, rfl, rfl⟩
  dsimp only
  split
  · linarith
  · exact le_refl 0

/-- C9: with an empty or otherwise falsy `inter_company_reference`, neither
`unlink_inter_company_doc` nor `update_linked_doc` performs any database
write. -/
theorem inter_company_doc_no_writes_of_falsy_reference (doctype name : String)
    (inter_company_reference : Option String)
    (h : truthyStr inter_company_reference = false) :
    unlink_inter_company_doc doctype name inter_company_reference = []
    ∧ update_linked_doc doctype name inter_company_reference = [] := by
  unfold unlink_inter_company_doc update_linked_doc
  simp [h]

/-- Witness for C9 at `inter_company_reference := none`. -/
theorem inter_company_doc_no_writes_witness :
    unlink_inter_company_doc "Sales Order" "SO-0001" none = []
    ∧ update_linked_doc "Sales Order" "SO-0001" none = [] :=
  inter_company_doc_no_writes_of_falsy_reference "Sales Order" "SO-0001" none rfl

/-- C10: with an empty or `None` `selected_items`, both `make_purchase_order`
and `make_purchase_order_for_default_supplier` return `None` without raising,
without creating a Purchase Order and without performing any database write,
whatever the rest of either function would do. -/
theorem make_purchase_order_noop_of_falsy_selected_items (α : Type)
    (selected_items : PyListArg SelectedItem) (parse : String → List SelectedItem)
    (rest rest_default : List SelectedItem → Option α × List DbWrite)
    (h : selected_items.truthy = false) :
    make_purchase_order selected_items parse rest = (none, [])
    ∧ make_purchase_order_for_default_supplier selected_items parse rest_default
        = (none, []) := by
  cases selected_items with
  | noneArg => exact ⟨rfl, rfl⟩
  | strArg s =>
    simp only [PyListArg.truthy, Bool.not_eq_false'] at h
    simp [make_purchase_order, make_purchase_order_for_default_supplier, h]
  | listArg l =>
    simp only [PyListArg.truthy, Bool.not_eq_false'] at h
    simp [make_purchase_order, make_purchase_order_for_default_supplier, h]

/-- Witness for C10 at `selected_items := None`, with a rest that would create
a Purchase Order and write to the database. -/
theorem make_purchase_order_noop_witness :
    make_purchase_order PyListArg.noneArg (fun _ => [])
        (examplePurchaseOrderRest "PO-0001") = (none, [])
    ∧ make_purchase_order_for_default_supplier PyListArg.noneArg (fun _ => [])
        (examplePurchaseOrderRest "PO-0002") = (none, []) :=
  make_purchase_order_noop_of_falsy_selected_items String PyListArg.noneArg (fun _ => [])
    (examplePurchaseOrderRest "PO-0001") (examplePurchaseOrderRest "PO-0002") rfl

/-- C7: `close_or_unclose_proforma` raises a permission error before touching
any document when the caller lacks write permission; otherwise each named
document's status changes exactly when its docstatus is 1 and, for a requested
"Closed", the current status is neither "Cancelled" nor "Closed" and either
percentage is below 100 (the document is then closed); for any other requested
status only a "Closed" document changes, to "Draft". -/
theorem close_or_unclose_proforma_spec (has_write_permission : Bool)
    (docs : List ProformaDoc) (status : String) (so : ProformaDoc) :
    (has_write_permission = false →
      close_or_unclose_proforma has_write_permission docs status = .error "Not permitted")
    ∧ (has_write_permission = true →
      close_or_unclose_proforma has_write_permission docs status
        = .ok (docs.map fun d => close_or_unclose_one d status))
    ∧ ((close_or_unclose_one so status).status ≠ so.status ↔
        so.docstatus = 1
        ∧ ((status = "Closed" ∧ ¬(so.status = "Cancelled" ∨ so.status = "Closed")
              ∧ (so.per_delivered < 100 ∨ so.per_billed < 100)
              ∧ (close_or_unclose_one so status).status = "Closed")
            ∨ (status ≠ "Closed" ∧ so.status = "Closed"
              ∧ (close_or_unclose_one so status).status = "Draft"))) := by
  refine ⟨fun h => by simp [close_or_unclose_proforma, h],
    fun h => by simp [close_or_unclose_proforma, h], ?_⟩
  unfold close_or_unclose_one
  split_ifs with h1 h2 h3 h4 <;> simp_all
  exact fun h => h3.1.2 h.symm

/-- Helper for C6: the verdict of the `condition` closure equals the
claim-side row criterion `dn_claim_condition`. -/
theorem dn_condition_fst (sre_details : List String)
    (delivery_dates : Option (List String)) (doc : DeliveryNoteSourceItem) :
    (make_delivery_note_condition sre_details delivery_dates doc).1
      = dn_claim_condition sre_details delivery_dates doc := by
  by_cases hc : doc.name ∈ sre_details <;>
    cases ht : truthyStrList delivery_dates <;>
      by_cases hdt : doc.delivery_date ∈ delivery_dates.getD [] <;>
        simp [make_delivery_note_condition, dn_claim_condition, hc, ht, hdt]

/-- Helper for C6: the `condition` closure deletes the row's key from the
reserved-stock dict exactly when the key is present, and otherwise leaves the
dict unchanged. -/
theorem dn_condition_snd (sre_details : List String)
    (delivery_dates : Option (List String)) (doc : DeliveryNoteSourceItem) :
    (make_delivery_note_condition sre_details delivery_dates doc).2
      = if sre_details.contains doc.name then sre_details.erase doc.name
        else sre_details := by
  unfold make_delivery_note_condition
  split_ifs with h1 h2 <;> simp [h1]

/-- Helper for C6: with distinct reserved-stock keys and distinct row names,
the main mapping pass appends exactly the rows satisfying the claim-side
criterion against the originally fetched key set, and leaves in the dict
exactly the keys naming no row. -/
theorem map_items_phase_eq (delivery_dates : Option (List String))
    (items : List DeliveryNoteSourceItem) (sre_details : List String)
    (hs : sre_details.Nodup) (hn : (items.map fun d => d.name).Nodup) :
    map_items_phase delivery_dates items sre_details
      = ((items.filter (dn_claim_condition sre_details delivery_dates)).map
          make_delivery_note_mapped_item,
        sre_details.filter fun k => !((items.map fun d => d.name).contains k)) := by
  induction items generalizing sre_details with
  | nil => simp [map_items_phase]
  | cons doc rest ih =>
    simp only [List.map_cons, List.nodup_cons, List.mem_map] at hn
    obtain ⟨hd_notin, hrest⟩ := hn
    simp only [map_items_phase, dn_condition_fst, dn_condition_snd]
    by_cases hc : doc.name ∈ sre_details
    · have hcb : sre_details.contains doc.name = true := by simpa using hc
      have hcond : dn_claim_condition sre_details delivery_dates doc = false := by
        simp [dn_claim_condition, hc]
      rw [hcb, if_pos rfl, hcond, if_neg (show ¬((false : Bool) = true) by simp)]
      rw [ih (sre_details.erase doc.name) (hs.erase _) hrest]
      simp only [Prod.mk.injEq]
      refine ⟨?_, ?_⟩
      · rw [List.filter_cons_of_neg (by simp [hcond])]
        refine congrArg _ (List.filter_congr fun x hx => ?_)
        have hxne : x.name ≠ doc.name := by
          intro he
          exact hd_notin ⟨x, hx, he⟩
        simp only [dn_claim_condition]
        have : (sre_details.erase doc.name).contains x.name
            = sre_details.contains x.name := by
          simp [List.mem_erase_of_ne hxne]
        rw [this]
      · rw [hs.erase_eq_filter, List.filter_filter]
        refine List.filter_congr fun k hk => ?_
        simp [List.contains_cons, Bool.not_or, Bool.and_comm, bne, Bool.beq_eq_decide_eq]
    · have hcb : sre_details.contains doc.name = false := by simpa using hc
      rw [hcb, if_neg (show ¬((false : Bool) = true) by simp)]
      rw [ih sre_details hs hrest]
      have hstate : (sre_details.filter fun k =>
            !((doc.name :: rest.map fun d => d.name).contains k))
          = sre_details.filter fun k => !((rest.map fun d => d.name).contains k) := by
        refine List.filter_congr fun k hk => ?_
        have hkne : k ≠ doc.name := fun he => hc (he ▸ hk)
        simp [List.contains_cons, hkne]
      by_cases hcond : dn_claim_condition sre_details delivery_dates doc = true
      · rw [if_pos hcond, List.filter_cons_of_pos hcond]
        simp only [Prod.mk.injEq, List.map_cons]
        exact ⟨trivial, hstate.symm⟩
      · rw [if_neg hcond, List.filter_cons_of_neg hcond]
        simp only [Prod.mk.injEq, List.map_cons]
        exact ⟨trivial, hstate.symm⟩

/-- Helper for C6: a hit in the `so_items` dict is a row of the voucher with
the looked-up name. -/
theorem so_items_lookup_mem (items : List DeliveryNoteSourceItem) (n : String)
    (doc : DeliveryNoteSourceItem) (h : so_items_lookup items n = some doc) :
    doc ∈ items ∧ doc.name = n := by
  unfold so_items_lookup at h
  refine ⟨?_, by simpa using List.find?_some h⟩
  have hmem := List.mem_of_find?_eq_some h
  rw [List.mem_reverse] at hmem
  exact (List.mem_filter.mp hmem).1

/-- Helper for C6: when no voucher row's name is left in the reserved-stock
dict, the reserved-stock branch leaves the dict alone and appends exactly the
claim-side reserved rows. -/
theorem map_reserved_phase_eq (delivery_dates : Option (List String))
    (items : List DeliveryNoteSourceItem) (sre_list : List SreDetail)
    (sre_details : List String) (out : List MappedDnItem × List String)
    (hdisj : ∀ doc ∈ items, sre_details.contains doc.name = false)
    (h : map_reserved_phase delivery_dates items sre_list sre_details = .ok out) :
    out = (dn_claim_reserved_rows delivery_dates items sre_list, sre_details) := by
  induction sre_list generalizing out with
  | nil =>
    simp only [map_reserved_phase, Except.ok.injEq] at h
    simp [dn_claim_reserved_rows, ← h]
  | cons sre rest ih =>
    simp only [map_reserved_phase] at h
    cases hl : so_items_lookup items sre.voucher_detail_no with
    | none => rw [hl] at h; simp at h
    | some doc =>
      rw [hl] at h
      simp only [] at h
      obtain ⟨hdocmem, _⟩ := so_items_lookup_mem items _ doc hl
      have hcont : sre_details.contains doc.name = false := hdisj doc hdocmem
      rw [dn_condition_snd, hcont, if_neg (show ¬((false : Bool) = true) by simp)] at h
      cases hrec : map_reserved_phase delivery_dates items rest sre_details with
      | error e => rw [hrec] at h; simp at h
      | ok t =>
        rw [hrec] at h
        have ht := ih t hrec
        subst ht
        rw [dn_condition_fst] at h
        have hcm : doc.name ∉ sre_details := by simpa using hcont
        have hcc : dn_claim_condition sre_details delivery_dates doc
            = ((!truthyStrList delivery_dates
                || (delivery_dates.getD []).contains doc.delivery_date)
              && decide (|doc.delivered_qty| < |doc.qty|)
              && doc.delivered_by_supplier != 1) := by
          simp [dn_claim_condition, hcm]
        rw [hcc] at h
        simp only [] at h
        simp only [dn_claim_reserved_rows, List.filterMap_cons, hl]
        by_cases hv : ((!truthyStrList delivery_dates
              || (delivery_dates.getD []).contains doc.delivery_date)
            && decide (|doc.delivered_qty| < |doc.qty|)
            && doc.delivered_by_supplier != 1) = true
        · rw [if_pos hv] at h
          simp only [Except.ok.injEq] at h
          rw [if_pos hv, ← h]
          simp [dn_claim_reserved_rows]
        · rw [if_neg hv] at h
          simp only [Except.ok.injEq] at h
          rw [if_neg hv, ← h]
          simp [dn_claim_reserved_rows]

/-- C6 as amended: with item mapping not skipped, distinct row names and
distinct reserved-stock keys, the Delivery Note rows `make_delivery_note` maps
are exactly: the voucher rows whose name is not among the reserved-stock
details fetched for the voucher, whose delivery date is in the caller-supplied
set of delivery dates whenever a non-empty such set is supplied, whose
`|delivered_qty| < |qty|` and whose `delivered_by_supplier` is not 1, each with
qty set to the source row's qty minus its `delivered_qty` — followed, when the
call is for reserved stock, by one row per Stock Reservation Entry of the
voucher whose item row passes the same delivery-date, quantity and supplier
checks, with qty set to the entry's `reserved_qty` times the row's conversion
factor. -/
theorem make_delivery_note_mapped_rows_spec (for_reserved_stock : Bool)
    (delivery_dates : Option (List String)) (items : List DeliveryNoteSourceItem)
    (sre_reserved_keys : List String) (sre_list : List SreDetail)
    (mapped : List MappedDnItem)
    (hitems : (items.map fun d => d.name).Nodup) (hkeys : sre_reserved_keys.Nodup)
    (h : make_delivery_note_items for_reserved_stock false delivery_dates items
        sre_reserved_keys sre_list = .ok mapped) :
    mapped
      = ((items.filter (dn_claim_condition
            (if for_reserved_stock then sre_reserved_keys else []) delivery_dates)).map
          make_delivery_note_mapped_item)
        ++ (if for_reserved_stock then
              dn_claim_reserved_rows delivery_dates items sre_list
            else []) := by
  unfold make_delivery_note_items at h
  cases for_reserved_stock with
  | false =>
    simp only [Bool.false_eq_true, if_false, Bool.and_false, ite_false] at h ⊢
    simp only [Except.ok.injEq] at h
    rw [map_items_phase_eq delivery_dates items [] List.nodup_nil hitems] at h
    rw [← h]
    simp
  | true =>
    simp only [Bool.false_eq_true, if_false, Bool.and_true, ite_false, Bool.not_false,
      if_true] at h ⊢
    by_cases he : sre_list.isEmpty
    · rw [if_neg (by simp [he])] at h
      simp only [Except.ok.injEq] at h
      rw [map_items_phase_eq delivery_dates items sre_reserved_keys hkeys hitems] at h
      have hnil : sre_list = [] := by simpa using he
      subst hnil
      rw [← h]
      simp [dn_claim_reserved_rows]
    · rw [if_pos (by simp [he])] at h
      cases hrec : map_reserved_phase delivery_dates items sre_list
          (map_items_phase delivery_dates items sre_reserved_keys).2 with
      | error e => rw [hrec] at h; simp at h
      | ok t =>
        rw [hrec] at h
        simp only [Except.ok.injEq] at h
        have hdisj : ∀ doc ∈ items,
            ((map_items_phase delivery_dates items sre_reserved_keys).2).contains doc.name
              = false := by
          intro doc hdoc
          rw [map_items_phase_eq delivery_dates items sre_reserved_keys hkeys hitems]
          have hnot : doc.name ∉ sre_reserved_keys.filter
              (fun k => !((items.map fun d => d.name).contains k)) := by
            intro hmem
            have hp := (List.mem_filter.mp hmem).2
            simp at hp
            exact hp doc hdoc rfl
          simpa using hnot
        have ht := map_reserved_phase_eq delivery_dates items sre_list _ t hdisj hrec
        subst ht
        rw [map_items_phase_eq delivery_dates items sre_reserved_keys hkeys hitems] at h
        rw [← h]

/-- Witness for C6: a voucher with the single row `exampleReservedDnItem`,
whose name is the one fetched reserved-stock key, and one Stock Reservation
Entry reserving 5 of it, maps exactly the one reserved row with qty
`5 * 1 = 5`. -/
theorem make_delivery_note_mapped_rows_witness :
    [exampleReservedMappedRow]
      = (([exampleReservedDnItem].filter
            (dn_claim_condition ["PRFI-0005"] none)).map make_delivery_note_mapped_item)
        ++ dn_claim_reserved_rows none [exampleReservedDnItem] [exampleSreDetail] :=
  make_delivery_note_mapped_rows_spec true none [exampleReservedDnItem] ["PRFI-0005"]
    [exampleSreDetail] [exampleReservedMappedRow] (by simp) (by simp)
    (by norm_num [make_delivery_note_items, map_items_phase, map_reserved_phase,
      make_delivery_note_condition, make_delivery_note_update_item, so_items_lookup,
      truthyStrList, flt, exampleReservedDnItem, exampleSreDetail, exampleReservedMappedRow])

/-- C6 counterexample, refuting the original claim on the code at two concrete
calls of `make_delivery_note`: (1) called for reserved stock, the row named by
the fetched reserved-stock details — which the claim says is never mapped — is
mapped, and with qty `reserved_qty * conversion_factor = 5`, not
`qty - delivered_qty = 10`; (2) with a caller-supplied empty set of delivery
dates, a row whose delivery date is in no supplied set is mapped all the
same. -/
theorem make_delivery_note_claim_counterexample :
    (make_delivery_note_items true false none [exampleReservedDnItem] ["PRFI-0005"]
        [exampleSreDetail] = .ok [exampleReservedMappedRow]
      ∧ (["PRFI-0005"] : List String).contains exampleReservedDnItem.name = true
      ∧ exampleReservedMappedRow.so_detail = exampleReservedDnItem.name
      ∧ exampleReservedMappedRow.qty
          ≠ exampleReservedDnItem.qty - exampleReservedDnItem.delivered_qty)
    ∧ (make_delivery_note_items false false (some []) [exampleDnItem] [] []
        = .ok [make_delivery_note_mapped_item exampleDnItem]
      ∧ ([] : List String).contains exampleDnItem.delivery_date = false) := by
  refine ⟨⟨?_, by simp [exampleReservedDnItem], rfl,
      by norm_num [exampleReservedMappedRow, exampleReservedDnItem]⟩, ?_, by simp⟩
  · norm_num [make_delivery_note_items, map_items_phase, map_reserved_phase,
      make_delivery_note_condition, make_delivery_note_update_item, so_items_lookup,
      truthyStrList, flt, exampleReservedDnItem, exampleSreDetail, exampleReservedMappedRow]
  · norm_num [make_delivery_note_items, map_items_phase, make_delivery_note_condition,
      make_delivery_note_mapped_item, make_delivery_note_update_item, truthyStrList, flt,
      exampleDnItem]

/-- C3 evidence: called with doctype "Proforma", `validate_inter_company_party`
selects party type "Supplier" and internal flag "is_internal_supplier", because
the sales-side branch on line 30 of general_functions.py tests the misspelled
literal "Porforma"; yet line 47 of the same function, spelt correctly, takes
the referenced counterpart document's supplier as the reference party — the
supplier-side branch contradicts the function's own sales-side treatment of a
Proforma (and the spec's "modeled on a Sales Order"). -/
theorem validate_inter_company_party_proforma_branch_bug :
    (inter_company_party_branch "Proforma").partytype = "Supplier"
    ∧ (inter_company_party_branch "Proforma").internal = "is_internal_supplier"
    ∧ inter_company_ref_party_is_supplier "Proforma" = true
    ∧ (inter_company_party_branch "Porforma").partytype = "Customer"
    ∧ (inter_company_party_branch "Porforma").internal = "is_internal_customer" := by
  refine ⟨rfl, rfl, by decide, rfl, rfl⟩

/-- C4: called without a batch number, `get_available_qty_to_reserve` returns
the stock balance minus the sum of `reserved_qty - delivered_qty` over all
submitted Stock Reservation Entries for the item and warehouse whose status is
neither "Delivered" nor "Cancelled" and whose `reserved_qty` is at least
`delivered_qty` (excluding the entry named by `ignore_sre` when given); a zero
stock balance, or a zero sum, returns the stock balance unchanged. -/
theorem get_available_qty_to_reserve_eq_claimed
    (get_stock_balance : String → String → ℚ)
    (get_batch_qty : String → String → String → Option String → ℚ)
    (sre_table : List StockReservationEntryRow) (item_code warehouse : String)
    (ignore_sre : Option String) :
    get_available_qty_to_reserve get_stock_balance get_batch_qty sre_table item_code
        warehouse none ignore_sre
      = claimed_available_qty_to_reserve get_stock_balance sre_table item_code warehouse
          ignore_sre := by
  unfold get_available_qty_to_reserve claimed_available_qty_to_reserve claimed_reserved_sum
  have hpred : ∀ sre : StockReservationEntryRow,
      (sre.docstatus == 1 && sre.item_code == item_code && sre.warehouse == warehouse
          && decide (sre.delivered_qty ≤ sre.reserved_qty)
          && !(["Delivered", "Cancelled"].contains sre.status)
          && (match ignore_sre with | some ig => sre.name != ig | none => true))
        = (sre.docstatus == 1 && sre.item_code == item_code && sre.warehouse == warehouse
          && decide (sre.delivered_qty ≤ sre.reserved_qty)
          && !(sre.status == "Delivered") && !(sre.status == "Cancelled")
          && (match ignore_sre with | some ig => sre.name != ig | none => true)) := by
    intro sre
    simp only [List.contains_cons, List.contains_nil, Bool.or_false, Bool.not_or,
      Bool.and_assoc]
  simp only [hpred]
  set s := ((sre_table.filter fun sre =>
      sre.docstatus == 1 && sre.item_code == item_code && sre.warehouse == warehouse
        && decide (sre.delivered_qty ≤ sre.reserved_qty)
        && !(sre.status == "Delivered") && !(sre.status == "Cancelled")
        && (match ignore_sre with | some ig => sre.name != ig | none => true)).map
    fun sre => sre.reserved_qty - sre.delivered_qty).sum with hs
  by_cases hb : get_stock_balance item_code warehouse = 0 <;>
    by_cases hz : s = 0 <;> simp [hb, hz]

/-- Helper for C1: whenever the per-item loop body creates an entry, its
`reserved_qty` is `min(unreserved, available)` capped by the item's
`qty_to_reserve` when present, hence at most each of the two. -/
theorem reserve_item_step_reserved_qty (env : ReservationEnv)
    (sre_table : List StockReservationEntryRow) (item : ProformaItem)
    (sre : CreatedStockReservationEntry)
    (h : reserve_item_step env sre_table item = .ok (some sre)) :
    sre.reserved_qty
        = claimed_reserved_qty item (get_unreserved_qty item env.reserved_qty_details)
            (get_available_qty_to_reserve env.get_stock_balance env.get_batch_qty sre_table
              item.item_code item.warehouse none none)
      ∧ sre.reserved_qty ≤ get_unreserved_qty item env.reserved_qty_details
      ∧ sre.reserved_qty ≤ get_available_qty_to_reserve env.get_stock_balance
          env.get_batch_qty sre_table item.item_code item.warehouse none none := by
  unfold reserve_item_step at h
  set u := get_unreserved_qty item env.reserved_qty_details with hu
  set a := get_available_qty_to_reserve env.get_stock_balance env.get_batch_qty sre_table
    item.item_code item.warehouse none none with ha
  simp only [] at h
  split at h
  · exact absurd h (by simp)
  split at h
  · exact absurd h (by simp)
  split at h
  · exact absurd h (by simp)
  split at h
  · exact absurd h (by simp)
  split at h
  · exact absurd h (by simp)
  split at h
  · exact absurd h (by simp)
  rcases hqtr : item.qty_to_reserve with _ | qtr
  · rw [hqtr] at h
    simp only [] at h
    split at h
    · exact absurd h (by simp)
    · simp only [Except.ok.injEq, Option.some.injEq] at h
      subst h
      exact ⟨by simp [claimed_reserved_qty, hqtr], min_le_left _ _, min_le_right _ _⟩
  · rw [hqtr] at h
    simp only [] at h
    by_cases hq : qtr ≤ 0
    · rw [if_pos hq] at h
      simp only [] at h
      exact absurd h (by simp)
    · rw [if_neg hq] at h
      simp only [] at h
      split at h
      · exact absurd h (by simp)
      · simp only [Except.ok.injEq, Option.some.injEq] at h
        subst h
        refine ⟨by simp [claimed_reserved_qty, hqtr], ?_, ?_⟩
        · exact le_trans (min_le_left (u ⊓ a) qtr) (min_le_left u a)
        · exact le_trans (min_le_left (u ⊓ a) qtr) (min_le_right u a)

/-- C1: every Stock Reservation Entry `create_stock_reservation_entries_for_so_items`
creates reserves, for its Proforma Item, exactly `min(unreserved qty, available
qty to reserve)` further capped by the item's `qty_to_reserve` when that
attribute is present — the unreserved qty from the voucher's reserved-quantity
map and the available qty from the Stock Reservation Entry table as it stood
when the entry was created — and hence never more than the item's unreserved
quantity nor more than the available quantity to reserve. -/
theorem create_stock_reservation_reserved_qty_spec (env : ReservationEnv)
    (register : CreatedStockReservationEntry → StockReservationEntryRow)
    (items : List ProformaItem) (sre_table : List StockReservationEntryRow)
    (created : List CreatedStockReservationEntry) (sre : CreatedStockReservationEntry)
    (h : create_entries_loop env register items sre_table = .ok created)
    (hmem : sre ∈ created) :
    ∃ item ∈ items, ∃ tbl : List StockReservationEntryRow,
      reserve_item_step env tbl item = .ok (some sre)
      ∧ sre.reserved_qty
          = claimed_reserved_qty item (get_unreserved_qty item env.reserved_qty_details)
              (get_available_qty_to_reserve env.get_stock_balance env.get_batch_qty tbl
                item.item_code item.warehouse none none)
      ∧ sre.reserved_qty ≤ get_unreserved_qty item env.reserved_qty_details
      ∧ sre.reserved_qty ≤ get_available_qty_to_reserve env.get_stock_balance
          env.get_batch_qty tbl item.item_code item.warehouse none none := by
  induction items generalizing sre_table created with
  | nil =>
    simp only [create_entries_loop, Except.ok.injEq] at h
    subst h
    simp at hmem
  | cons item rest ih =>
    simp only [create_entries_loop] at h
    cases hstep : reserve_item_step env sre_table item with
    | error e => rw [hstep] at h; simp at h
    | ok o =>
      rw [hstep] at h
      cases o with
      | none =>
        obtain ⟨it, hit, tbl, props⟩ := ih sre_table created h hmem
        exact ⟨it, List.mem_cons_of_mem _ hit, tbl, props⟩
      | some sre0 =>
        simp only [] at h
        cases hrec : create_entries_loop env register rest (sre_table ++ [register sre0]) with
        | error e => rw [hrec] at h; simp at h
        | ok l =>
          rw [hrec] at h
          simp only [Except.ok.injEq] at h
          subst h
          rcases List.mem_cons.mp hmem with rfl | hmem2
          · obtain ⟨h1, h2, h3⟩ := reserve_item_step_reserved_qty env sre_table item sre hstep
            exact ⟨item, List.mem_cons_self _ _, sre_table, hstep, h1, h2, h3⟩
          · obtain ⟨it, hit, tbl, props⟩ := ih (sre_table ++ [register sre0]) l hrec hmem2
            exact ⟨it, List.mem_cons_of_mem _ hit, tbl, props⟩

/-- Witness for C1: in `exampleReservationEnv`, running the loop over
`[exampleItem]` with an empty Stock Reservation Entry table creates exactly
`exampleCreatedSre`, whose `reserved_qty` is `min(5, 10) = 5`. -/
theorem create_stock_reservation_reserved_qty_witness :
    ∃ item ∈ [exampleItem], ∃ tbl : List StockReservationEntryRow,
      reserve_item_step exampleReservationEnv tbl item = .ok (some exampleCreatedSre)
      ∧ exampleCreatedSre.reserved_qty
          = claimed_reserved_qty item
              (get_unreserved_qty item exampleReservationEnv.reserved_qty_details)
              (get_available_qty_to_reserve exampleReservationEnv.get_stock_balance
                exampleReservationEnv.get_batch_qty tbl item.item_code item.warehouse
                none none)
      ∧ exampleCreatedSre.reserved_qty
          ≤ get_unreserved_qty item exampleReservationEnv.reserved_qty_details
      ∧ exampleCreatedSre.reserved_qty
          ≤ get_available_qty_to_reserve exampleReservationEnv.get_stock_balance
              exampleReservationEnv.get_batch_qty tbl item.item_code item.warehouse
              none none :=
  create_stock_reservation_reserved_qty_spec exampleReservationEnv exampleRegister
    [exampleItem] [] [exampleCreatedSre] exampleCreatedSre
    (by norm_num [create_entries_loop, reserve_item_step, get_unreserved_qty,
      get_available_qty_to_reserve, flt, exampleReservationEnv, exampleItem,
      exampleCreatedSre, truthyStr])
    (by simp)

end ProformaApp
